import Mathlib

/-!
Shallow embedding of `rest_api_tests.go` from the table-driven REST API
test harness. Go strings are modelled as Lean `String` (all strings the
program builds are ASCII, so Go byte indexing agrees with character
indexing), Go byte slices as `List Nat`, the backing HTTP service as a
function from requests to responses, and the frisby test object as an
explicit record threaded through the checks.
-/

namespace RestApiTests

/-! ### Constants from the source -/

def apiURL : String := "http://localhost:8080/api/v1/"

def contentTypeHeader : String := "Content-Type"

def authHeaderName : String := "x-rh-identity"

/-- MIME type for JSON format. -/
def ContentTypeJSON : String := "application/json; charset=utf-8"

def ContentTypeJSONWithoutCharset : String := "application/json"

def ContentTypeText : String := "text/plain; charset=utf-8"

/-- no response status -/
def None : String := ""

/-- Modelled from the spec: `server.OkStatusPayload` comes from the
aggregator server library, absent from src/; per the spec scenarios the
expected payload status literal is "ok". -/
def OkStatusResponse : String := "ok"

def MissingAuthToken : String := "Missing auth token"

/-- user account number -/
def accountNumber : String := "42"

/-! ### Base64 standard encoding (Go `encoding/base64` StdEncoding) -/

def base64Table : List Char :=
  "ABCDEFGHIJKLMNOPQRSTUVWXYZabcdefghijklmnopqrstuvwxyz0123456789+/".data

def b64c (n : Nat) : Char := base64Table.getD n (Char.ofNat 65)

/-- Groups of three bytes become four alphabet characters; a trailing
group of one or two bytes is zero-padded and marked with `=`. -/
def base64Chunks : List Nat → List Char
  | [] => []
  | [b0] =>
      [b64c (b0 / 4), b64c (b0 % 4 * 16), Char.ofNat 61, Char.ofNat 61]
  | [b0, b1] =>
      [b64c (b0 / 4), b64c (b0 % 4 * 16 + b1 / 16), b64c (b1 % 16 * 4),
        Char.ofNat 61]
  | b0 :: b1 :: b2 :: rest =>
      b64c (b0 / 4) :: b64c (b0 % 4 * 16 + b1 / 16) ::
        b64c (b1 % 16 * 4 + b2 / 64) :: b64c (b2 % 64) :: base64Chunks rest

def base64Encode (bs : List Nat) : String := String.mk (base64Chunks bs)

/-- Go `[]byte(s)` for the ASCII strings this program builds. -/
def strBytes (s : String) : List Nat := s.data.map Char.toNat

/-! ### Headers, requests, responses -/

/-- Header lookup (`http.Header.Get`); returns `""` when absent. The
program writes and reads header keys in one fixed spelling, so exact key
comparison models the canonicalising Go lookup. -/
def headerGet (hs : List (String × String)) (k : String) : String :=
  match hs.find? (fun p => p.1 == k) with
  | some p => p.2
  | Option.none => ""

/-- Header set: replace the entry under `k`, or append one. -/
def headersSet (hs : List (String × String)) (k v : String) :
    List (String × String) :=
  if hs.any (fun p => p.1 == k) then
    hs.map (fun p => if p.1 == k then (k, v) else p)
  else hs ++ [(k, v)]

/-- Whether some header entry uses key `k`. -/
def headersHas (hs : List (String × String)) (k : String) : Bool :=
  hs.any (fun p => p.1 == k)

structure Request where
  method : String
  url : String
  headers : List (String × String)
deriving DecidableEq, Repr

/-- What `json.Unmarshal` of a response body would extract: the `status`
field when present as a string, and the `info` string-to-string mapping
when present.  Absent fields decode to the Go zero value. -/
structure JsonDoc where
  status : Option String
  info : Option (List (String × String))
deriving DecidableEq, Repr

/-- Outcome of `json.Unmarshal` on the body text. -/
inductive BodyParse where
  | parseError (msg : String)
  | parsed (doc : JsonDoc)
deriving DecidableEq, Repr

/-- Outcome of reading the body: `f.Resp.Content()` may itself fail. -/
inductive RespContent where
  | contentError (msg : String)
  | body (b : BodyParse)
deriving DecidableEq, Repr

structure Response where
  statusCode : Nat
  headers : List (String × String)
  content : RespContent
deriving DecidableEq, Repr

/-! ### The frisby test object -/

/-- The frisby test object: name, request under construction, response
after `Send`, and the accumulated per-object error list (`F.Errs`). -/
structure Frisby where
  Name : String
  Method : String
  Url : String
  reqHeaders : List (String × String)
  resp : Response
  Errs : List String
deriving DecidableEq, Repr

/-- `frisby.Create`: fresh object, no headers, no errors, no response
yet (reading the nil response is an error, as in Go). -/
def frisbyCreate (name : String) : Frisby :=
  { Name := name, Method := "", Url := "", reqHeaders := []
    resp := { statusCode := 0, headers := []
              content := RespContent.contentError "nil response" }
    Errs := [] }

/-- `F.AddError`: append to the per-object error list. -/
def Frisby.addError (f : Frisby) (msg : String) : Frisby :=
  { f with Errs := f.Errs ++ [msg] }

/-- `F.SetHeader`. -/
def Frisby.setHeader (f : Frisby) (k v : String) : Frisby :=
  { f with reqHeaders := headersSet f.reqHeaders k v }

/-- `F.Send`: ask the backing service (modelled as a function from
requests to responses) for the response to the built request. -/
def Frisby.send (world : Request → Response) (f : Frisby) : Frisby :=
  { f with resp := world { method := f.Method, url := f.Url
                           headers := f.reqHeaders } }

/-- `F.ExpectStatus`: exact status-code equality, mismatch recorded. -/
def Frisby.expectStatus (f : Frisby) (code : Nat) : Frisby :=
  if f.resp.statusCode ≠ code then
    f.addError ("Expected Status " ++ toString code ++ " but got " ++
      toString f.resp.statusCode)
  else f

/-- `F.ExpectHeader`: exact equality against the response header value;
a missing header and a differing value are both recorded failures. -/
def Frisby.expectHeader (f : Frisby) (k v : String) : Frisby :=
  let chk := headerGet f.resp.headers k
  if chk = "" then
    f.addError ("Expected Header " ++ k ++ " but it was missing")
  else if chk ≠ v then
    f.addError ("Expected Header " ++ k ++ " to be " ++ v ++
      " but got " ++ chk)
  else f

/-! ### Auth header injection -/

/-- The plain identity payload built by `setAuthHeaderForOrganization`
via `fmt.Sprintf`: note `account_number` sits inside the `identity`
object, next to `internal`. -/
def authPayload (orgID : Int) : String :=
  "\x7b\"identity\": \x7b\"internal\": \x7b\"org_id\": \"" ++
    toString orgID ++ "\"\x7d, \"account_number\":\"" ++ accountNumber ++
    "\"\x7d\x7d"

/-- `setAuthHeaderForOrganization`: base64-encode the identity payload
and set it under the fixed auth header name. -/
def setAuthHeaderForOrganization (f : Frisby) (orgID : Int) : Frisby :=
  let plainHeader := authPayload orgID
  let encodedHeader := base64Encode (strBytes plainHeader)
  f.setHeader authHeaderName encodedHeader

/-- `setAuthHeader`: auth header for organization 1. -/
def setAuthHeader (f : Frisby) : Frisby :=
  setAuthHeaderForOrganization f 1

/-! ### URL construction

`httputils.MakeURLToEndpoint` and the endpoint templates come from
external libraries, so the library call is a parameter; the functions
own only the `url[1:]` slice.  Go slicing `url[1:]` panics when
`1 > len(url)`; the panic is modelled as `Option.none`. -/

def goSliceFromOne (s : String) : Option String :=
  if 1 ≤ s.length then some (s.drop 1) else Option.none

/-- `constructURLForReportForOrgCluster`: build the library URL for the
report endpoint and strip its first character. -/
def constructURLForReportForOrgCluster
    (MakeURLToEndpoint : String → String → List String → String)
    (ReportEndpoint : String)
    (organizationID clusterID userID : String) : Option String :=
  let url := MakeURLToEndpoint "" ReportEndpoint
    [organizationID, clusterID, userID]
  goSliceFromOne url

/-- `constructURLForReportInfoForOrgCluster`: same for the report
metainfo endpoint. -/
def constructURLForReportInfoForOrgCluster
    (MakeURLToEndpoint : String → String → List String → String)
    (ReportMetainfoEndpoint : String)
    (organizationID clusterID userID : String) : Option String :=
  let url := MakeURLToEndpoint "" ReportMetainfoEndpoint
    [organizationID, clusterID, userID]
  goSliceFromOne url

/-! ### Response structures and checkers -/

/-- Response containing just a status. -/
structure StatusOnlyResponse where
  Status : String
deriving DecidableEq, Repr

/-- Response from the `/info` endpoint. -/
structure InfoResponse where
  Info : List (String × String)
  Status : String
deriving DecidableEq, Repr

/-- `json.Unmarshal` into `StatusOnlyResponse`: a missing field keeps
the zero value. -/
def unmarshalStatusOnly (doc : JsonDoc) : StatusOnlyResponse :=
  { Status := doc.status.getD "" }

/-- `json.Unmarshal` into `InfoResponse`. -/
def unmarshalInfo (doc : JsonDoc) : InfoResponse :=
  { Info := doc.info.getD [], Status := doc.status.getD "" }

/-- `readStatusFromResponse`: read the body then parse it; either
failure is recorded via `AddError` and the zero-value response is
returned. -/
def readStatusFromResponse (f : Frisby) : Frisby × StatusOnlyResponse :=
  match f.resp.content with
  | RespContent.contentError msg => (f.addError msg, { Status := "" })
  | RespContent.body (BodyParse.parseError msg) =>
      (f.addError msg, { Status := "" })
  | RespContent.body (BodyParse.parsed doc) => (f, unmarshalStatusOnly doc)

def statusMismatchMessage (expected got : String) : String :=
  "Expected status is " ++ expected ++ " but got " ++ got ++ " instead"

/-- `statusResponseChecker`: compare the parsed `status` attribute with
the expected one. -/
def statusResponseChecker (f : Frisby) (expectedStatus : String) : Frisby :=
  let r := readStatusFromResponse f
  if r.2.Status ≠ expectedStatus then
    r.1.addError (statusMismatchMessage expectedStatus r.2.Status)
  else r.1

/-- `metricsEndPointContentTypeChecker`: the content type must start
with "text/plain". -/
def metricsEndPointContentTypeChecker (f : Frisby) : Frisby :=
  let header := headerGet f.resp.headers contentTypeHeader
  if String.isPrefixOf "text/plain" header then f
  else f.addError ("Expected Header " ++ contentTypeHeader ++
    " to be text/plain but got " ++ header)

def expectedInfoKeys : List String :=
  ["BuildBranch", "BuildCommit", "BuildTime", "BuildVersion",
    "DB_version", "UtilsVersion"]

def infoKeyMissingMessage (key : String) : String :=
  "Info node does not contain key " ++ key

/-- `infoResponseChecker`: elementary checks for the `/info` endpoint.
A body-read error is recorded and stops the checker; a parse error is
recorded and the remaining checks run on the zero-value response, as in
the Go original. -/
def infoResponseChecker (f : Frisby) : Frisby :=
  match f.resp.content with
  | RespContent.contentError msg => f.addError msg
  | RespContent.body b =>
      let response : InfoResponse :=
        match b with
        | BodyParse.parseError _ => { Info := [], Status := "" }
        | BodyParse.parsed doc => unmarshalInfo doc
      let f1 : Frisby :=
        match b with
        | BodyParse.parseError msg => f.addError msg
        | BodyParse.parsed _ => f
      let f2 := if response.Status ≠ "ok" then
          f1.addError "Expecting status to be set to ok"
        else f1
      let f3 := if response.Info.length = 0 then
          f2.addError "Info node is empty"
        else f2
      expectedInfoKeys.foldl (fun acc key =>
        if headersHas response.Info key then acc
        else acc.addError (infoKeyMissingMessage key)) f3

/-! ### Test cases and the endpoint check -/

/-- The additional checkers the table can install; in Go this field is a
function pointer, and these are the two checker functions the program
defines. -/
inductive Checker where
  | metricsChecker
  | infoChecker
deriving DecidableEq, Repr

def runChecker : Checker → Frisby → Frisby
  | Checker.metricsChecker, f => metricsEndPointContentTypeChecker f
  | Checker.infoChecker, f => infoResponseChecker f

/-- `RestAPITest`: specification of one REST API call and its expected
response. -/
structure RestAPITest where
  Endpoint : String
  Method : String
  Message : String
  AuthHeader : Bool
  AuthHeaderOrganization : Int
  ExpectedStatus : Nat
  ExpectedContentType : String
  ExpectedResponseStatus : String
  AdditionalChecker : Option Checker
deriving DecidableEq, Repr

/-- The content-type stage of `checkEndPoint`: check the response type
only when an expected content type is given. -/
def contentTypeStage (test : RestAPITest) (f : Frisby) : Frisby :=
  if test.ExpectedContentType ≠ None then
    f.expectHeader contentTypeHeader test.ExpectedContentType
  else f

/-- The additional-check stage of `checkEndPoint`: run the installed
checker, if any. -/
def additionalCheckerStage (test : RestAPITest) (f : Frisby) : Frisby :=
  match test.AdditionalChecker with
  | some c => runChecker c f
  | Option.none => f

/-- The response-status stage of `checkEndPoint`: the status can be
returned in JSON format too. -/
def responseStatusStage (test : RestAPITest) (f : Frisby) : Frisby :=
  if test.ExpectedResponseStatus ≠ None then
    statusResponseChecker f test.ExpectedResponseStatus
  else f

/-- `checkEndPoint`: perform the request of one test case and check the
response. -/
def checkEndPoint (world : Request → Response) (test : RestAPITest) :
    Frisby :=
  let url := apiURL ++ test.Endpoint
  let f0 := frisbyCreate test.Message
  let f1 := { f0 with Method := test.Method, Url := url }
  let f2 := if test.AuthHeader then
      (if test.AuthHeaderOrganization ≠ 0 then
        setAuthHeaderForOrganization f1 test.AuthHeaderOrganization
      else setAuthHeader f1)
    else f1
  let f3 := f2.send world
  let f4 := f3.expectStatus test.ExpectedStatus
  let f5 := contentTypeStage test f4
  let f6 := additionalCheckerStage test f5
  let f7 := responseStatusStage test f6
  f7

/-! ### The runner -/

/-- The frisby global report counters read at the end of the run. -/
structure GlobalData where
  numErrored : Nat
  numErrors : Nat
deriving DecidableEq, Repr

/-- Modelled from the spec: the accounting of `frisby.Global` lives in
the vendored frisby library, absent from src/.  Per the spec, each
case reaches `PrintReport` exactly once and the exit count is the
number of cases that recorded at least one failure, so `PrintReport`
marks a case as errored once when its error list is non-empty. -/
def printReportGlobal (g : GlobalData) (f : Frisby) : GlobalData :=
  if f.Errs.isEmpty then g
  else { numErrored := g.numErrored + 1
         numErrors := g.numErrors + f.Errs.length }

/-- The runner loop: evaluate each case in table order, report it, and
keep the per-case trace. -/
def runAllTestsFrom (world : Request → Response)
    (tests : List RestAPITest) (g : GlobalData) :
    GlobalData × List Frisby :=
  match tests with
  | [] => (g, [])
  | t :: rest =>
      let f := checkEndPoint world t
      let p := runAllTestsFrom world rest (printReportGlobal g f)
      (p.1, f :: p.2)

/-- `runAllTests`: run all tests from a fresh global report and return
`frisby.Global.NumErrored`. -/
def runAllTests (world : Request → Response)
    (tests : List RestAPITest) : Nat :=
  (runAllTestsFrom world tests { numErrored := 0, numErrors := 0 }).1.numErrored

/-- `main`: `os.Exit(runAllTests(tests))` — the process exit code is the
value returned by the runner. -/
def mainExitCode (world : Request → Response)
    (tests : List RestAPITest) : Nat :=
  runAllTests world tests

/-! ### Derived quantities and spec-side definitions -/

/-- Number of cases of a table that record at least one failure. -/
def casesWithFailures (world : Request → Response)
    (tests : List RestAPITest) : Nat :=
  (tests.filter (fun t => !(checkEndPoint world t).Errs.isEmpty)).length

/-- The keys of the fixed six-element key set that are absent from the
info mapping. -/
def missingInfoKeys (info : List (String × String)) : List String :=
  expectedInfoKeys.filter (fun k => !headersHas info k)

/-- The identity payload as the spec words it, for comparison with the
source-derived `authPayload`: here `account_number` sits outside the
`identity` object. -/
def specClaimAuthPayload (orgID : Int) : String :=
  "\x7b\"identity\": \x7b\"internal\": \x7b\"org_id\": \"" ++
    toString orgID ++ "\"\x7d\x7d, \"account_number\": \"" ++
    accountNumber ++ "\"\x7d"

/-! ### Concrete fixtures (worlds, responses and table rows used to
instantiate the universally quantified theorems) -/

/-- A healthy service: status 200, JSON content type, body parsing to
the ok status. -/
def okResponse : Response :=
  { statusCode := 200
    headers := [(contentTypeHeader, ContentTypeJSON)]
    content := RespContent.body (BodyParse.parsed
      { status := some "ok", info := Option.none }) }

def worldOk : Request → Response := fun _ => okResponse

/-- The first row of the test table. -/
def testEntry : RestAPITest :=
  { Message := "Check the entry point to REST API using HTTP GET method"
    Endpoint := ""
    Method := "GET"
    AuthHeader := true
    AuthHeaderOrganization := 0
    ExpectedStatus := 200
    ExpectedContentType := ContentTypeJSON
    ExpectedResponseStatus := OkStatusResponse
    AdditionalChecker := Option.none }

/-- The Prometheus metrics row of the test table: no auth header, no
expected content type, an additional checker. -/
def testMetrics : RestAPITest :=
  { Message := "Check the Prometheus metrics API endpoint"
    Endpoint := "metrics"
    Method := "GET"
    AuthHeader := false
    AuthHeaderOrganization := 0
    ExpectedStatus := 200
    ExpectedContentType := None
    ExpectedResponseStatus := None
    AdditionalChecker := some Checker.metricsChecker }

/-- A frisby object after sending, whose body fails to parse. -/
def frisbyParseErr : Frisby :=
  { frisbyCreate "parse error fixture" with
    resp := { statusCode := 200, headers := []
              content := RespContent.body
                (BodyParse.parseError "invalid character") } }

/-- An info document missing four of the six expected keys. -/
def infoDocPartial : JsonDoc :=
  { status := some "ok"
    info := some [("BuildBranch", "main"), ("BuildTime", "now")] }

/-- A frisby object after sending, whose body parses to
`infoDocPartial`. -/
def frisbyInfoPartial : Frisby :=
  { frisbyCreate "info fixture" with
    resp := { statusCode := 200, headers := []
              content := RespContent.body
                (BodyParse.parsed infoDocPartial) } }

/-- A URL-building library model that returns slash-prefixed paths. -/
def libSlash : String → String → List String → String :=
  fun pre endp args =>
    pre ++ endp ++ args.foldl (fun acc a => acc ++ "/" ++ a) ""

/-- A degenerate URL-building library model returning the empty
string. -/
def libEmpty : String → String → List String → String :=
  fun _ _ _ => ""

/-! ## Helper lemmas -/

theorem addError_Errs (f : Frisby) (m : String) :
    (f.addError m).Errs = f.Errs ++ [m] := rfl

theorem addError_reqHeaders (f : Frisby) (m : String) :
    (f.addError m).reqHeaders = f.reqHeaders := rfl

theorem send_reqHeaders (world : Request → Response) (f : Frisby) :
    (f.send world).reqHeaders = f.reqHeaders := rfl

theorem expectStatus_reqHeaders (f : Frisby) (c : Nat) :
    (f.expectStatus c).reqHeaders = f.reqHeaders := by
  unfold Frisby.expectStatus
  split <;> rfl

theorem expectHeader_reqHeaders (f : Frisby) (k v : String) :
    (f.expectHeader k v).reqHeaders = f.reqHeaders := by
  unfold Frisby.expectHeader
  dsimp only
  split
  · rfl
  · split <;> rfl

theorem contentTypeStage_reqHeaders (test : RestAPITest) (f : Frisby) :
    (contentTypeStage test f).reqHeaders = f.reqHeaders := by
  unfold contentTypeStage
  split
  · exact expectHeader_reqHeaders f _ _
  · rfl

theorem readStatus_fst_reqHeaders (f : Frisby) :
    (readStatusFromResponse f).1.reqHeaders = f.reqHeaders := by
  unfold readStatusFromResponse
  rcases f.resp.content with msg | b
  · rfl
  · rcases b with msg | doc <;> rfl

theorem statusResponseChecker_reqHeaders (f : Frisby) (e : String) :
    (statusResponseChecker f e).reqHeaders = f.reqHeaders := by
  unfold statusResponseChecker
  dsimp only
  split
  · rw [addError_reqHeaders, readStatus_fst_reqHeaders]
  · rw [readStatus_fst_reqHeaders]

theorem metricsChecker_reqHeaders (f : Frisby) :
    (metricsEndPointContentTypeChecker f).reqHeaders = f.reqHeaders := by
  unfold metricsEndPointContentTypeChecker
  dsimp only
  split <;> rfl

theorem foldl_infoKeys_reqHeaders (keys : List String)
    (info : List (String × String)) (f : Frisby) :
    (keys.foldl (fun acc key =>
      if headersHas info key then acc
      else acc.addError (infoKeyMissingMessage key)) f).reqHeaders =
      f.reqHeaders := by
  induction keys generalizing f with
  | nil => rfl
  | cons k ks ih =>
      rw [List.foldl_cons, ih]
      split <;> rfl

theorem infoResponseChecker_reqHeaders (f : Frisby) :
    (infoResponseChecker f).reqHeaders = f.reqHeaders := by
  unfold infoResponseChecker
  rcases f.resp.content with msg | b
  · rfl
  · rcases b with msg | doc <;>
      · dsimp only
        rw [foldl_infoKeys_reqHeaders]
        split <;> split <;> rfl

theorem additionalCheckerStage_reqHeaders (test : RestAPITest)
    (f : Frisby) :
    (additionalCheckerStage test f).reqHeaders = f.reqHeaders := by
  unfold additionalCheckerStage
  rcases test.AdditionalChecker with _ | c
  · rfl
  · rcases c with _ | _
    · exact metricsChecker_reqHeaders f
    · exact infoResponseChecker_reqHeaders f

theorem responseStatusStage_reqHeaders (test : RestAPITest)
    (f : Frisby) :
    (responseStatusStage test f).reqHeaders = f.reqHeaders := by
  unfold responseStatusStage
  split
  · exact statusResponseChecker_reqHeaders f _
  · rfl

/-- The request headers `checkEndPoint` sends are exactly what the auth
stage produced: the auth header when requested, nothing otherwise. -/
theorem checkEndPoint_reqHeaders (world : Request → Response)
    (test : RestAPITest) :
    (checkEndPoint world test).reqHeaders =
      if test.AuthHeader then
        headersSet [] authHeaderName (base64Encode (strBytes (authPayload
          (if test.AuthHeaderOrganization ≠ 0 then
            test.AuthHeaderOrganization else 1))))
      else [] := by
  unfold checkEndPoint
  rw [responseStatusStage_reqHeaders, additionalCheckerStage_reqHeaders,
    contentTypeStage_reqHeaders, expectStatus_reqHeaders, send_reqHeaders]
  cases hA : test.AuthHeader
  · simp [frisbyCreate]
  · simp only [if_true]
    split
    · simp [setAuthHeaderForOrganization, Frisby.setHeader, frisbyCreate]
    · simp [setAuthHeader, setAuthHeaderForOrganization, Frisby.setHeader,
        frisbyCreate]

/-- The global errored-case counter after a partial run: the starting
value plus the number of failing cases of the remaining table. -/
theorem runAllTestsFrom_numErrored (world : Request → Response)
    (tests : List RestAPITest) (g : GlobalData) :
    (runAllTestsFrom world tests g).1.numErrored =
      g.numErrored + casesWithFailures world tests := by
  induction tests generalizing g with
  | nil => simp [runAllTestsFrom, casesWithFailures]
  | cons t ts ih =>
      rw [runAllTestsFrom]
      dsimp only
      rw [ih]
      unfold casesWithFailures printReportGlobal
      cases h : (checkEndPoint world t).Errs.isEmpty <;>
        simp [h, List.filter_cons] <;> omega

theorem append_singleton_ne (l : List String) (m : String) :
    l ++ [m] ≠ l := by
  intro hEq
  have := congrArg List.length hEq
  simp at this

theorem foldl_infoKeys_Errs (keys : List String)
    (info : List (String × String)) (f : Frisby) :
    (keys.foldl (fun acc key =>
      if headersHas info key then acc
      else acc.addError (infoKeyMissingMessage key)) f).Errs =
      f.Errs ++ (keys.filter (fun k => !headersHas info k)).map
        infoKeyMissingMessage := by
  induction keys generalizing f with
  | nil => simp
  | cons k ks ih =>
      rw [List.foldl_cons, List.filter_cons]
      cases hk : headersHas info k <;>
        simp [hk, ih, addError_Errs]

/-! ## Claims -/

/-- C2: after all table cases have run, the process exit code equals the
number of cases that recorded at least one failure, and the exit code is
zero exactly when no case recorded any failure. -/
theorem exit_code_counts_failing_cases (world : Request → Response)
    (tests : List RestAPITest) :
    mainExitCode world tests = casesWithFailures world tests ∧
    (mainExitCode world tests = 0 ↔
      ∀ t ∈ tests, (checkEndPoint world t).Errs = []) := by
  have h : mainExitCode world tests = casesWithFailures world tests := by
    unfold mainExitCode runAllTests
    rw [runAllTestsFrom_numErrored]
    simp
  refine ⟨h, ?_⟩
  rw [h]
  unfold casesWithFailures
  rw [List.length_eq_zero, List.filter_eq_nil_iff]
  constructor
  · intro hnil t ht
    have := hnil t ht
    simpa using this
  · intro hall t ht
    simp [hall t ht]

/-- C6: the runner evaluates every case of the table exactly once, in
table order, regardless of accumulated failures: its per-case trace is
the map of `checkEndPoint` over the table, whatever the starting global
state, and has the same length as the table. -/
theorem runner_evaluates_each_case_once_in_order
    (world : Request → Response) (tests : List RestAPITest)
    (g : GlobalData) :
    (runAllTestsFrom world tests g).2 =
      tests.map (checkEndPoint world) ∧
    (runAllTestsFrom world tests g).2.length = tests.length := by
  have h : ∀ (ts : List RestAPITest) (g0 : GlobalData),
      (runAllTestsFrom world ts g0).2 = ts.map (checkEndPoint world) := by
    intro ts
    induction ts with
    | nil => intro g0; rfl
    | cons t ts ih =>
        intro g0
        rw [runAllTestsFrom]
        dsimp only
        rw [ih, List.map_cons]
  refine ⟨h tests g, ?_⟩
  rw [h tests g, List.length_map]

/-- C8: the failure count of a full run is a function of the table and
the service model alone: starting from any carried-over global state the
run adds the same count, so two successive executions of the table add
identical failure counts. -/
theorem runner_failure_count_deterministic (world : Request → Response)
    (tests : List RestAPITest) (g : GlobalData) :
    (runAllTestsFrom world tests g).1.numErrored =
      g.numErrored + runAllTests world tests ∧
    (runAllTestsFrom world tests
        (runAllTestsFrom world tests g).1).1.numErrored =
      g.numErrored + 2 * runAllTests world tests := by
  have hrun : runAllTests world tests = casesWithFailures world tests := by
    unfold runAllTests
    rw [runAllTestsFrom_numErrored]
    simp
  constructor
  · rw [runAllTestsFrom_numErrored, hrun]
  · rw [runAllTestsFrom_numErrored, runAllTestsFrom_numErrored, hrun]
    omega

/-- C9: `setAuthHeader` attaches exactly what
`setAuthHeaderForOrganization` with organization 1 attaches, and a test
case with the auth organization explicitly set to 1 behaves identically
to the same case with the zero default. -/
theorem setAuthHeader_is_org_one (f : Frisby)
    (world : Request → Response) (test : RestAPITest) :
    setAuthHeader f = setAuthHeaderForOrganization f 1 ∧
    checkEndPoint world
        { test with AuthHeader := true, AuthHeaderOrganization := 1 } =
      checkEndPoint world
        { test with AuthHeader := true, AuthHeaderOrganization := 0 } := by
  refine ⟨rfl, ?_⟩
  unfold checkEndPoint
  simp [setAuthHeader, responseStatusStage, additionalCheckerStage,
    contentTypeStage]

/-- C5: when a test case does not require auth, no entry under the
identity header name is present among the request headers of the
outgoing request, whatever the auth organization field holds. -/
theorem no_auth_header_without_requiresAuth (world : Request → Response)
    (test : RestAPITest) (h : test.AuthHeader = false) :
    headersHas (checkEndPoint world test).reqHeaders authHeaderName =
      false := by
  rw [checkEndPoint_reqHeaders, h]
  rfl

theorem no_auth_header_without_requiresAuth_witness :
    headersHas (checkEndPoint worldOk testMetrics).reqHeaders
      authHeaderName = false :=
  no_auth_header_without_requiresAuth worldOk testMetrics rfl

/-- C4: the content-type stage of `checkEndPoint` does nothing at all
when the expected content type is empty, and otherwise records no
failure exactly when the response content-type header equals the
expected value. -/
theorem content_type_check_iff_expected_nonempty (test : RestAPITest)
    (f : Frisby) :
    (test.ExpectedContentType = "" → contentTypeStage test f = f) ∧
    (test.ExpectedContentType ≠ "" →
      ((contentTypeStage test f).Errs = f.Errs ↔
        headerGet f.resp.headers contentTypeHeader =
          test.ExpectedContentType)) := by
  constructor
  · intro h
    simp [contentTypeStage, None, h]
  · intro h
    have hc : test.ExpectedContentType ≠ None := by simpa [None] using h
    unfold contentTypeStage
    rw [if_pos hc]
    unfold Frisby.expectHeader
    dsimp only
    by_cases h1 : headerGet f.resp.headers contentTypeHeader = ""
    · rw [if_pos h1]
      simp only [addError_Errs]
      constructor
      · intro habs
        exact absurd habs (append_singleton_ne _ _)
      · intro h2
        exact absurd (h1.symm.trans h2).symm h
    · rw [if_neg h1]
      by_cases h2 : headerGet f.resp.headers contentTypeHeader =
          test.ExpectedContentType
      · rw [if_neg (fun hn => hn h2)]
        simp [h2]
      · rw [if_pos h2]
        simp only [addError_Errs]
        constructor
        · intro habs
          exact absurd habs (append_singleton_ne _ _)
        · intro hcc
          exact absurd hcc h2

theorem content_type_check_iff_expected_nonempty_witness :
    contentTypeStage testMetrics (frisbyCreate "w") = frisbyCreate "w" ∧
    ((contentTypeStage testEntry (frisbyCreate "w")).Errs =
        (frisbyCreate "w").Errs ↔
      headerGet (frisbyCreate "w").resp.headers contentTypeHeader =
        testEntry.ExpectedContentType) :=
  ⟨(content_type_check_iff_expected_nonempty testMetrics
      (frisbyCreate "w")).1 rfl,
   (content_type_check_iff_expected_nonempty testEntry
      (frisbyCreate "w")).2 (by decide)⟩

/-- C3: with a non-empty expected response status, a body that fails to
parse has the parse error message recorded (non-fatally, followed by the
comparison against the zero value), and a body that parses is checked by
exact string equality of its status field, a mismatch being recorded as
one failure. -/
theorem status_checker_parse_and_equality (f : Frisby) (exp : String)
    (hexp : exp ≠ "") :
    (∀ msg, f.resp.content = RespContent.body (BodyParse.parseError msg) →
      (statusResponseChecker f exp).Errs =
        f.Errs ++ [msg, statusMismatchMessage exp ""]) ∧
    (∀ doc, f.resp.content = RespContent.body (BodyParse.parsed doc) →
      (statusResponseChecker f exp).Errs =
        if (unmarshalStatusOnly doc).Status = exp then f.Errs
        else f.Errs ++
          [statusMismatchMessage exp (unmarshalStatusOnly doc).Status]) := by
  constructor
  · intro msg h
    unfold statusResponseChecker readStatusFromResponse
    rw [h]
    dsimp only
    rw [if_pos (Ne.symm hexp)]
    simp [addError_Errs]
  · intro doc h
    unfold statusResponseChecker readStatusFromResponse
    rw [h]
    dsimp only
    by_cases hs : (unmarshalStatusOnly doc).Status = exp
    · simp [hs]
    · simp [hs, addError_Errs]

theorem status_checker_parse_and_equality_witness :
    (statusResponseChecker frisbyParseErr OkStatusResponse).Errs =
      frisbyParseErr.Errs ++ ["invalid character",
        statusMismatchMessage OkStatusResponse ""] :=
  (status_checker_parse_and_equality frisbyParseErr OkStatusResponse
    (by decide)).1 "invalid character" rfl

/-- C7: on a parsed body the info checker records one failure when the
status field is not the literal ok, one when the info mapping is empty,
and one distinct failure per expected key absent from the mapping, in
one pass; hence at least as many failures as missing keys are added. -/
theorem info_checker_reports_each_missing_key (f : Frisby)
    (doc : JsonDoc)
    (h : f.resp.content = RespContent.body (BodyParse.parsed doc)) :
    (infoResponseChecker f).Errs =
      ((f.Errs ++
        (if (unmarshalInfo doc).Status = "ok" then []
          else ["Expecting status to be set to ok"])) ++
        (if (unmarshalInfo doc).Info.length = 0 then
          ["Info node is empty"] else [])) ++
        (missingInfoKeys (unmarshalInfo doc).Info).map
          infoKeyMissingMessage ∧
    f.Errs.length + (missingInfoKeys (unmarshalInfo doc).Info).length ≤
      (infoResponseChecker f).Errs.length := by
  have heq : (infoResponseChecker f).Errs =
      ((f.Errs ++
        (if (unmarshalInfo doc).Status = "ok" then []
          else ["Expecting status to be set to ok"])) ++
        (if (unmarshalInfo doc).Info.length = 0 then
          ["Info node is empty"] else [])) ++
        (missingInfoKeys (unmarshalInfo doc).Info).map
          infoKeyMissingMessage := by
    unfold infoResponseChecker
    rw [h]
    dsimp only
    rw [foldl_infoKeys_Errs]
    unfold missingInfoKeys
    by_cases hs : (unmarshalInfo doc).Status = "ok" <;>
      by_cases hl : (unmarshalInfo doc).Info.length = 0 <;>
        simp [hs, hl, addError_Errs]
  refine ⟨heq, ?_⟩
  rw [heq]
  simp only [List.length_append, List.length_map]
  omega

theorem info_checker_reports_each_missing_key_witness :
    frisbyInfoPartial.Errs.length +
      (missingInfoKeys (unmarshalInfo infoDocPartial).Info).length ≤
      (infoResponseChecker frisbyInfoPartial).Errs.length :=
  (info_checker_reports_each_missing_key frisbyInfoPartial
    infoDocPartial rfl).2

/-- C1 counterexample: the header value the program attaches for the
first table row (organization defaulting to 1) differs from the base64
encoding of the payload shape written in the spec, which puts
`account_number` outside the `identity` object. -/
theorem claim_auth_payload_shape_refuted :
    headerGet (checkEndPoint worldOk testEntry).reqHeaders
      authHeaderName ≠
      base64Encode (strBytes (specClaimAuthPayload 1)) := by decide

/-- C1 amended: for every test case requiring auth, `checkEndPoint`
attaches, under the fixed header name, the base64 encoding of the
source payload — `account_number` inside the `identity` object — with
the organization id taken from the case when non-zero and 1 when
zero. -/
theorem auth_header_attaches_encoded_payload
    (world : Request → Response) (test : RestAPITest)
    (h : test.AuthHeader = true) :
    headerGet (checkEndPoint world test).reqHeaders authHeaderName =
      base64Encode (strBytes (authPayload
        (if test.AuthHeaderOrganization ≠ 0 then
          test.AuthHeaderOrganization else 1))) := by
  rw [checkEndPoint_reqHeaders, h]
  simp [headersSet, headerGet]

theorem auth_header_attaches_encoded_payload_witness :
    headerGet (checkEndPoint worldOk testEntry).reqHeaders
      authHeaderName =
      base64Encode (strBytes (authPayload
        (if testEntry.AuthHeaderOrganization ≠ 0 then
          testEntry.AuthHeaderOrganization else 1))) :=
  auth_header_attaches_encoded_payload worldOk testEntry rfl

/-- C10: both URL constructors return the string produced by the
URL-building library with exactly its first character removed; the
slice is in bounds exactly when the library result is non-empty, and on
an empty result the operation panics (modelled as `Option.none`)
instead of returning a value. -/
theorem construct_url_slices_library_result
    (lib : String → String → List String → String)
    (repE metaE org cluster user : String) :
    ((lib "" repE [org, cluster, user] ≠ "" →
        constructURLForReportForOrgCluster lib repE org cluster user =
          some ((lib "" repE [org, cluster, user]).drop 1)) ∧
      (lib "" repE [org, cluster, user] = "" →
        constructURLForReportForOrgCluster lib repE org cluster user =
          Option.none)) ∧
    ((lib "" metaE [org, cluster, user] ≠ "" →
        constructURLForReportInfoForOrgCluster lib metaE org cluster
          user = some ((lib "" metaE [org, cluster, user]).drop 1)) ∧
      (lib "" metaE [org, cluster, user] = "" →
        constructURLForReportInfoForOrgCluster lib metaE org cluster
          user = Option.none)) := by
  have key : ∀ s : String,
      (s ≠ "" → goSliceFromOne s = some (s.drop 1)) ∧
      (s = "" → goSliceFromOne s = Option.none) := by
    intro s
    obtain ⟨l⟩ := s
    constructor
    · intro hs
      have h0 : (String.mk l).length ≠ 0 := by
        intro hlen
        apply hs
        rw [String.mk_length, List.length_eq_zero] at hlen
        rw [hlen]
      unfold goSliceFromOne
      rw [if_pos (Nat.one_le_iff_ne_zero.mpr h0)]
    · intro hs
      rw [hs]
      rfl
  exact ⟨⟨fun h => (key _).1 h, fun h => (key _).2 h⟩,
    ⟨fun h => (key _).1 h, fun h => (key _).2 h⟩⟩

theorem construct_url_slices_library_result_witness :
    constructURLForReportForOrgCluster libSlash "report" "1" "abc" "u" =
      some ((libSlash "" "report" ["1", "abc", "u"]).drop 1) ∧
    constructURLForReportInfoForOrgCluster libEmpty "meta" "1" "abc"
      "u" = Option.none :=
  ⟨(construct_url_slices_library_result libSlash "report" "meta" "1"
      "abc" "u").1.1 (by decide),
   (construct_url_slices_library_result libEmpty "report" "meta" "1"
      "abc" "u").2.2 rfl⟩

end RestApiTests
